import Mathlib

/-!
Verification development for the latte-test framework core.

The definitions below are a shallow embedding of the JavaScript source:
`TestRunner.runAll` / `TestRunner.runSingle` (src/runner.js),
`BrowserApp.see`, `BrowserApp.findElement`, `BrowserApp.cleanup`,
`BrowserApp.resolution` / `BrowserApp.getResolution` (src/browser-app.js).

The live browser (Puppeteer) is modelled as an oracle: a `Dom` snapshot for
the in-page predicate of `see`, and a `ProbePage` answering
`waitForSelector` probes for `findElement`.  Asynchronous JS functions are
modelled as total functions returning `Except`/`Outcome` values; a JS
`throw` is an `Except.error` / `Outcome.threw` carrying the error message.
-/

namespace Latte

/-- Character-list prefix test: does the first list start the second?
Helper for the JS `String.prototype.includes` model. -/
def startsWithChars : List Char → List Char → Bool
  | [], _ => true
  | _ :: _, [] => false
  | a :: p, b :: s => a == b && startsWithChars p s

/-- JS `String.prototype.includes` on character lists: the pattern occurs
as a contiguous run somewhere in the list. -/
def includesChars (pat : List Char) : List Char → Bool
  | [] => pat.isEmpty
  | c :: rest => startsWithChars pat (c :: rest) || includesChars pat rest

/-- JS `s.includes(pat)`: substring containment on strings. -/
def containsSubstr (s pat : String) : Bool :=
  includesChars pat.data s.data

/-! ## Test runner (src/runner.js) -/

/-- Outcome of awaiting a JS async function: fulfilled, or rejected with an
error whose `.message` is the carried string. -/
inductive Outcome where
  | ok : Outcome
  | threw : String → Outcome

/-- Recognized test options (spec section 3).  `timeout` is `none` when the
author omitted it; the hook fields record whether `startBy` / `finishBy`
callbacks are present in the options object. -/
structure TestOptions where
  timeout : Option Nat
  headless : Bool
  hasStartBy : Bool
  hasFinishBy : Bool

/-- The browser-facing state of one `BrowserApp` instance: whether the
Puppeteer browser and page handles are live (non-null). -/
structure AppState where
  browserLive : Bool
  pageLive : Bool

/-- A declared test: description, group, options, the body
(`test.testFn(app)`) modelled as a state transformer on the app it
receives together with its outcome, and the wall-clock duration the body
takes (the runner only ever measures it, never bounds it). -/
structure Test where
  description : String
  group : Option String
  options : TestOptions
  bodyRun : AppState → AppState × Outcome
  bodyDurationMs : Nat

/-- A Test Result as returned by `TestRunner.runSingle`. -/
structure TestResult where
  description : String
  passed : Bool
  error : Option String
  duration : Nat
  group : Option String

/-- Observable actions performed while running one test; used to state
which callbacks the runner actually invokes. -/
inductive Action where
  | bodyRan
  | cleanupRan
  | startByRan
  | finishByRan

/-- BrowserApp.cleanup: `if (this.browser) { close; browser = null; page = null }`. -/
def cleanup (s : AppState) : AppState :=
  if s.browserLive then { browserLive := false, pageLive := false } else s

/-- The effective session timeout: `options.timeout || 5000`
(JS `||`, so an explicit 0 also falls back to the default). -/
def effectiveTimeout (o : TestOptions) : Nat :=
  match o.timeout with
  | none => 5000
  | some t => if t = 0 then 5000 else t

/-- A freshly constructed `BrowserApp`: browser and page handles are null. -/
def appInit : AppState :=
  { browserLive := false, pageLive := false }

/-- TestRunner.runSingle, instrumented with the final app state and the
trace of actions performed.  Mirrors src/runner.js lines 58-96: construct
the app, await the body; on fulfilment clean up and report passed; on
rejection clean up (the app reference is always non-null there) and
report failed with the error message.  `cleanup` is modelled as
non-throwing.  No hook from `test.options` is ever invoked. -/
def runSingleTrace (t : Test) : TestResult × AppState × List Action :=
  let app1 := (t.bodyRun appInit).1
  match (t.bodyRun appInit).2 with
  | Outcome.ok =>
      ({ description := t.description, passed := true, error := none,
         duration := t.bodyDurationMs, group := t.group },
       cleanup app1, [Action.bodyRan, Action.cleanupRan])
  | Outcome.threw msg =>
      ({ description := t.description, passed := false, error := some msg,
         duration := t.bodyDurationMs, group := t.group },
       cleanup app1, [Action.bodyRan, Action.cleanupRan])

/-- TestRunner.runSingle: the Test Result alone. -/
def runSingle (t : Test) : TestResult :=
  (runSingleTrace t).1

/-- Aggregated outcome of `TestRunner.runAll`. -/
structure RunSummary where
  passed : Nat
  failed : Nat
  results : List TestResult

/-- One iteration of the `for (const test of tests)` loop in
TestRunner.runAll: run the test, append its result, bump a counter. -/
def runAllStep (acc : RunSummary) (t : Test) : RunSummary :=
  let result := runSingle t
  { passed := acc.passed + (if result.passed then 1 else 0),
    failed := acc.failed + (if result.passed then 0 else 1),
    results := acc.results ++ [result] }

/-- TestRunner.runAll (src/runner.js lines 16-51), with logging elided. -/
def runAll (tests : List Test) : RunSummary :=
  tests.foldl runAllStep { passed := 0, failed := 0, results := [] }

/-! ## Content matcher: BrowserApp.see (src/browser-app.js lines 100-157) -/

/-- One snapshot of the page as seen by the predicate passed to
`page.waitForFunction`.  `query s` abstracts `document.querySelector(s)` /
`document.querySelectorAll(s)`: `none` means the selector fails to parse
(the DOM call throws), `some n` means it parses and matches `n` elements. -/
structure Dom where
  innerText : String
  innerHTML : String
  textNodes : List String
  query : String → Option Nat

/-- The selector heuristic guard of strategy 1:
`searchText.startsWith('.') || searchText.startsWith('#') || searchText.includes('[')`. -/
def selectorShaped (q : String) : Bool :=
  startsWithChars ".".data q.data || startsWithChars "#".data q.data || containsSubstr q "["

/-- The attribute selector built by strategy 4 by direct string
concatenation (a query containing a double quote makes it invalid). -/
def ariaSelector (q : String) : String :=
  "[aria-label*=\"" ++ q ++ "\"], [aria-labelledby*=\"" ++ q ++ "\"], [title*=\"" ++ q ++ "\"]"

/-- Strategies 2-5 of the in-page predicate, evaluated in order with the
first hit winning: visible text, raw markup, ARIA/attribute match (whose
selector construction can throw, yielding `none`), and the
case-insensitive walk over text nodes. -/
def seeStrategies2to5 (d : Dom) (q : String) : Option Bool :=
  if containsSubstr d.innerText q then some true
  else if containsSubstr d.innerHTML q then some true
  else
    match d.query (ariaSelector q) with
    | none => none
    | some n =>
        if 0 < n then some true
        else some (d.textNodes.any (fun t => containsSubstr t.toLower q.toLower))

/-- One evaluation of the predicate passed to `waitForFunction`.
Strategy 1: for a selector-shaped query, `return querySelector(q) !== null`
— when the selector parses, that verdict is returned directly (true or
false); only a parse failure is swallowed and falls through to the
remaining strategies.  `none` models the predicate itself throwing. -/
def seePredicate (d : Dom) (q : String) : Option Bool :=
  if selectorShaped q then
    match d.query q with
    | some n => some (decide (0 < n))
    | none => seeStrategies2to5 d q
  else seeStrategies2to5 d q

/-- `page.waitForFunction` over the successive page snapshots of the
polling ticks that fit inside the session timeout: a true tick fulfils,
a throwing tick rejects with the evaluation error, running out of ticks
rejects with Puppeteer's timeout error. -/
def waitForFunction : List Dom → String → Except String Unit
  | [], _ => Except.error "TimeoutError"
  | d :: rest, q =>
      match seePredicate d q with
      | some true => Except.ok ()
      | some false => waitForFunction rest q
      | none => Except.error "Evaluation failed"

/-- The single failure message of `see`. -/
def seeMsg (q : String) : String :=
  "Expected to see \"" ++ q ++ "\" but it was not found on the page"

/-- BrowserApp.see: await the waitForFunction; any rejection whatsoever
(timeout or in-page evaluation error) is caught and replaced by the one
ContentNotFound message. -/
def see (doms : List Dom) (q : String) : Except String Unit :=
  match waitForFunction doms q with
  | Except.ok _ => Except.ok ()
  | Except.error _ => Except.error (seeMsg q)

/-! ## Element resolver: BrowserApp.findElement (src/browser-app.js lines 300-370) -/

/-- The live page as an oracle for `page.waitForSelector`: `found s t`
says whether waiting for selector `s` with timeout `t` milliseconds
succeeds. -/
structure ProbePage where
  found : String → Nat → Bool

/-- The guard deciding whether the token is already selector-like:
`includes('[') || includes('.') || includes('#') || includes(' ') || includes('>')`. -/
def isSelectorLike (s : String) : Bool :=
  containsSubstr s "[" || containsSubstr s "." || containsSubstr s "#" ||
  containsSubstr s " " || containsSubstr s ">"

/-- An attribute-equality selector template, e.g. `[name="token"]`. -/
def attrSel (a x : String) : String :=
  "[" ++ a ++ "=\"" ++ x ++ "\"]"

/-- The `:not([disabled])` refinement used by the first probe of each
candidate. -/
def notDisabled (s : String) : String :=
  s ++ ":not([disabled])"

/-- The ordered candidate list of findElement (the `strategies` array
after `.filter(Boolean)`): semantic-role shortcut first, then the
testing, form, accessibility and general attribute templates, then the
raw token. -/
def strategiesFor (selector : String) : List String :=
  (if selector == "submit" || selector == "Confirm"
     then ["button[type=\"submit\"]"] else [])
  ++ [attrSel "data-testid" selector,
      attrSel "data-test-id" selector,
      attrSel "data-cy" selector,
      attrSel "name" selector,
      "#" ++ selector,
      attrSel "aria-label" selector,
      attrSel "aria-labelledby" selector,
      attrSel "placeholder" selector,
      attrSel "title" selector,
      "." ++ selector,
      attrSel "role" selector,
      selector]

/-- The failure message of findElement. -/
def notFoundMsg (selector : String) : String :=
  "Element \"" ++ selector ++ "\" not found. Searched using data-testid, name, aria-label, id, and other common selectors."

/-- The `for (const strategy of strategies)` loop of findElement,
instrumented with the list of `waitForSelector` probes `(selector,
timeoutMs)` it issues: for each candidate first probe
`candidate:not([disabled])` at 2000 ms, on failure re-probe the bare
candidate at 1000 ms; the first candidate resolving under either probe is
returned and the loop stops. -/
def probeLoopTrace (p : ProbePage) : List String → Option String × List (String × Nat)
  | [] => (none, [])
  | s :: rest =>
      if p.found (notDisabled s) 2000 then (some s, [(notDisabled s, 2000)])
      else if p.found s 1000 then (some s, [(notDisabled s, 2000), (s, 1000)])
      else
        let r := probeLoopTrace p rest
        (r.1, (notDisabled s, 2000) :: (s, 1000) :: r.2)

/-- BrowserApp.findElement: selector-like tokens are tried directly first
(1000 ms); otherwise the candidate loop runs; if it finds nothing, two
longer last-chance probes (`data-testid` at 8000 ms, `aria-label` at
3000 ms) are made before failing. -/
def findElement (p : ProbePage) (selector : String) : Except String String :=
  if isSelectorLike selector && p.found selector 1000 then Except.ok selector
  else
    match (probeLoopTrace p (strategiesFor selector)).1 with
    | some s => Except.ok s
    | none =>
        if p.found (attrSel "data-testid" selector) 8000 then
          Except.ok (attrSel "data-testid" selector)
        else if p.found (attrSel "aria-label" selector) 3000 then
          Except.ok (attrSel "aria-label" selector)
        else Except.error (notFoundMsg selector)

/-- The probes issued for a fully unsuccessful prefix of candidates: two
per candidate, enabled-only first. -/
def probesOf : List String → List (String × Nat)
  | [] => []
  | s :: rest => (notDisabled s, 2000) :: (s, 1000) :: probesOf rest

/-! ## Viewport: BrowserApp.resolution / getResolution (src/browser-app.js lines 202-232) -/

/-- A live Puppeteer page as far as the viewport operations observe it. -/
structure PageState where
  viewport : Nat × Nat

/-- The page handle of a `BrowserApp` (null before `init`). -/
structure AppRes where
  page : Option PageState

/-- BrowserApp.init: create the page if absent (Puppeteer's default
viewport is 800x600); otherwise do nothing. -/
def initRes (a : AppRes) : AppRes :=
  match a.page with
  | some _ => a
  | none => { page := some { viewport := (800, 600) } }

/-- BrowserApp.resolution: `await this.init(); page.setViewport({width, height})`. -/
def resolution (a : AppRes) (w h : Nat) : AppRes :=
  let a1 := initRes a
  { page := a1.page.map (fun _ => { viewport := (w, h) }) }

/-- BrowserApp.getResolution: throws when the page is null, otherwise
returns `page.viewport()`. -/
def getResolution (a : AppRes) : Except String (Nat × Nat) :=
  match a.page with
  | none => Except.error "Browser not initialized. Call open() first."
  | some p => Except.ok p.viewport

/-! ## Concrete inputs used by counterexamples and witnesses -/

/-- Options with a `finishBy` hook present and nothing else special. -/
def finishByOptions : TestOptions :=
  { timeout := none, headless := true, hasStartBy := false, hasFinishBy := true }

/-- Options with a 5000 ms timeout and no hooks. -/
def plainOptions : TestOptions :=
  { timeout := some 5000, headless := true, hasStartBy := false, hasFinishBy := false }

/-- A test carrying a `finishBy` hook whose body fulfils without touching
the browser. -/
def finishByTest : Test :=
  { description := "has finishBy", group := none, options := finishByOptions,
    bodyRun := fun s => (s, Outcome.ok), bodyDurationMs := 10 }

/-- A test whose body opens the browser and then throws. -/
def throwingTest : Test :=
  { description := "throws", group := none, options := plainOptions,
    bodyRun := fun _ => ({ browserLive := true, pageLive := true }, Outcome.threw "boom"),
    bodyDurationMs := 20 }

/-- A test whose body fulfils but takes 60000 ms, far beyond the
configured 5000 ms timeout. -/
def slowPassingTest : Test :=
  { description := "slow body", group := none, options := plainOptions,
    bodyRun := fun s => (s, Outcome.ok), bodyDurationMs := 60000 }

/-- A page snapshot whose visible text contains the query "#promo" while
"#promo" is a valid CSS selector matching zero elements. -/
def promoDom : Dom :=
  { innerText := "Big #promo today", innerHTML := "", textNodes := [],
    query := fun _ => some 0 }

/-- A snapshot on which every selector parses and matches 3 elements. -/
def matchingDom : Dom :=
  { innerText := "", innerHTML := "", textNodes := [],
    query := fun _ => some 3 }

/-- A snapshot on which every selector fails to parse, with query text
present verbatim in the visible text. -/
def parseFailDom : Dom :=
  { innerText := "pick [[w now", innerHTML := "", textNodes := [],
    query := fun _ => none }

/-- A snapshot whose raw markup contains "hello" but whose visible text
does not. -/
def markupDom : Dom :=
  { innerText := "", innerHTML := "<b>hello</b>", textNodes := [],
    query := fun _ => some 0 }

/-- A page on which only `button[type="submit"]` (enabled) resolves. -/
def submitPage : ProbePage :=
  { found := fun s _ => s == "button[type=\"submit\"]:not([disabled])" }

/-- A page on which both `[name="user"]` and `[aria-label="user"]`
resolve as enabled elements. -/
def nameAriaPage : ProbePage :=
  { found := fun s _ =>
      s == "[name=\"user\"]:not([disabled])" || s == "[aria-label=\"user\"]:not([disabled])" }

/-- A page for the probe-loop witness: `[name="q"]` resolves only when
disabled elements are allowed, `[aria-label="q"]` resolves enabled. -/
def probePage : ProbePage :=
  { found := fun s _ => s == "[name=\"q\"]" || s == "[aria-label=\"q\"]:not([disabled])" }

/-- A fresh app whose browser has not been initialized. -/
def freshApp : AppRes :=
  { page := none }

/-! ## Theorems -/

/-- The runner never changes a test's description. -/
theorem runSingle_description (t : Test) :
    (runSingle t).description = t.description := by
  unfold runSingle runSingleTrace
  cases (t.bodyRun appInit).2 <;> rfl

/-- Loop invariant of the `for` loop in runAll: the accumulator collects
one result per test in order, and its two counters together grow by one
per test. -/
theorem runAll_foldl_spec (ts : List Test) : ∀ acc : RunSummary,
    (List.foldl runAllStep acc ts).results = acc.results ++ ts.map runSingle
    ∧ (List.foldl runAllStep acc ts).passed + (List.foldl runAllStep acc ts).failed
        = acc.passed + acc.failed + ts.length := by
  induction ts with
  | nil => intro acc; simp
  | cons t rest ih =>
      intro acc
      have h := ih (runAllStep acc t)
      have hstep : (runAllStep acc t).passed + (runAllStep acc t).failed
          = acc.passed + acc.failed + 1 := by
        simp only [runAllStep]
        cases hp : (runSingle t).passed <;> simp [hp] <;> omega
      constructor
      · rw [List.foldl_cons, h.1]
        simp [runAllStep]
      · rw [List.foldl_cons, List.length_cons]
        have h2 := h.2
        omega

/-- C1: runAll produces exactly one Test Result per declared test, in
declaration order; the returned counters satisfy
passed + failed = number of declared tests; and since each result is
computed by the total function runSingle (which converts a thrown body
error into a failed result instead of propagating it), an error in one
test's body never prevents the remaining tests from producing their own
results. -/
theorem runAll_one_result_per_test (ts : List Test) :
    (runAll ts).results = ts.map runSingle
    ∧ (runAll ts).results.map (fun r => r.description)
        = ts.map (fun t => t.description)
    ∧ (runAll ts).passed + (runAll ts).failed = ts.length := by
  have h := runAll_foldl_spec ts { passed := 0, failed := 0, results := [] }
  have h1 : (runAll ts).results = ts.map runSingle := by
    simpa [runAll] using h.1
  refine ⟨h1, ?_, by simpa [runAll] using h.2⟩
  rw [h1, List.map_map]
  simp [Function.comp_def, runSingle_description]

/-- C2: the claim (and the repository documentation) says a present
finishBy hook executes exactly once on both the success and the failure
path; the shipped runSingle never reads test.options and never invokes
any hook, so finishBy is executed zero times. -/
theorem runSingle_never_runs_finishBy (t : Test)
    (h : t.options.hasFinishBy = true) :
    Action.finishByRan ∉ (runSingleTrace t).2.2 := by
  unfold runSingleTrace
  cases (t.bodyRun appInit).2 <;> simp

/-- Witness for C2: a concrete test carrying a finishBy hook whose run
trace contains no finishBy invocation. -/
theorem runSingle_never_runs_finishBy_witness :
    finishByTest.options.hasFinishBy = true
    ∧ Action.finishByRan ∉ (runSingleTrace finishByTest).2.2 :=
  ⟨rfl, runSingle_never_runs_finishBy finishByTest rfl⟩

/-- C3: on every exit path of runSingle — body fulfilled or body threw —
cleanup is invoked exactly once (the trace is literally one body run
followed by one cleanup), and afterwards neither the browser nor the page
handle is live.  The hypothesis states that the body, interacting with
the app only through its methods, leaves the browser and page handles
coupled (init sets both, cleanup clears both). -/
theorem runSingle_releases_session_once (t : Test)
    (h : ((t.bodyRun appInit).1).browserLive = ((t.bodyRun appInit).1).pageLive) :
    (runSingleTrace t).2.2 = [Action.bodyRan, Action.cleanupRan]
    ∧ ((runSingleTrace t).2.1).browserLive = false
    ∧ ((runSingleTrace t).2.1).pageLive = false := by
  unfold runSingleTrace
  cases h2 : (t.bodyRun appInit).2 <;>
    cases h1 : ((t.bodyRun appInit).1).browserLive <;>
      simp_all [cleanup]

/-- Witness for C3: a test that opens the browser and then throws still
ends with exactly one cleanup and a dead session. -/
theorem runSingle_releases_session_once_witness :
    (runSingleTrace throwingTest).2.2 = [Action.bodyRan, Action.cleanupRan]
    ∧ ((runSingleTrace throwingTest).2.1).browserLive = false
    ∧ ((runSingleTrace throwingTest).2.1).pageLive = false :=
  runSingle_releases_session_once throwingTest rfl

/-- Counterexample for C4: a test whose body takes 60000 ms against a
configured 5000 ms timeout is recorded Passed with no error at all — the
runner neither bounds the body's duration nor produces any
timeout-specific message. -/
theorem runSingle_timeout_not_enforced_cex :
    effectiveTimeout slowPassingTest.options = 5000
    ∧ slowPassingTest.bodyDurationMs = 60000
    ∧ (runSingle slowPassingTest).passed = true
    ∧ (runSingle slowPassingTest).error = none :=
  ⟨rfl, rfl, rfl, rfl⟩

/-- C4 (amended): the runner's verdict depends only on whether the body
throws, never on the body's duration relative to options.timeout: a test
passes exactly when its body fulfils, a thrown body error is recorded
verbatim (there is no runner-level timeout message), the verdict is
unchanged under any body duration, and the session is still released on
both paths.  options.timeout only reaches the browser session, where it
bounds individual page operations. -/
theorem runSingle_verdict_ignores_duration (t : Test) :
    ((runSingle t).passed = true ↔ (t.bodyRun appInit).2 = Outcome.ok)
    ∧ (∀ msg, (t.bodyRun appInit).2 = Outcome.threw msg →
        (runSingle t).error = some msg)
    ∧ (∀ d, (runSingle { t with bodyDurationMs := d }).passed = (runSingle t).passed)
    ∧ Action.cleanupRan ∈ (runSingleTrace t).2.2 := by
  unfold runSingle runSingleTrace
  cases h2 : (t.bodyRun appInit).2 <;> simp [h2]

/-- Witness for C4's amended theorem: a throwing body is recorded with
its own message, and the over-long passing body is recorded Passed. -/
theorem runSingle_verdict_ignores_duration_witness :
    (runSingle throwingTest).error = some "boom"
    ∧ (runSingle slowPassingTest).passed = true := by
  have h := runSingle_verdict_ignores_duration throwingTest
  exact ⟨h.2.1 "boom" rfl, rfl⟩

/-- Counterexample for C5: the query "#promo" parses as a valid CSS
selector matching zero elements, the page's visible text contains
"#promo" verbatim, yet the tick evaluates to false and see fails — the
valid-selector verdict suppresses the visible-text, raw-markup, ARIA and
case-insensitive strategies on that tick. -/
theorem see_valid_selector_blocks_text_cex :
    containsSubstr promoDom.innerText "#promo" = true
    ∧ promoDom.query "#promo" = some 0
    ∧ seePredicate promoDom "#promo" = some false
    ∧ see [promoDom] "#promo" = Except.error (seeMsg "#promo") :=
  ⟨by decide, rfl, by decide, by simp [see, waitForFunction, seePredicate, selectorShaped, promoDom, startsWithChars]⟩

/-- C5 (amended): on each tick, a selector-shaped query that parses as a
valid CSS selector yields exactly querySelector's verdict — with zero
matches the tick is false and strategies 2-5 are not consulted; a query
whose selector parse fails is treated as a strategy miss and falls
through to the remaining strategies (here: visible text); a
non-selector-shaped query is checked against strategies 2-5 directly
(here: raw markup). -/
theorem seePredicate_strategy_eval (d : Dom) (q : String) :
    (selectorShaped q = true → ∀ n, d.query q = some n →
        seePredicate d q = some (decide (0 < n)))
    ∧ (d.query q = none → containsSubstr d.innerText q = true →
        seePredicate d q = some true)
    ∧ (selectorShaped q = false → containsSubstr d.innerHTML q = true →
        seePredicate d q = some true) := by
  refine ⟨?_, ?_, ?_⟩
  · intro hs n hq
    simp [seePredicate, hs, hq]
  · intro hq ht
    unfold seePredicate seeStrategies2to5
    cases hs : selectorShaped q <;> simp [hq, ht]
  · intro hs hh
    unfold seePredicate seeStrategies2to5
    rw [hs]
    cases hT : containsSubstr d.innerText q <;> simp [hT, hh]

/-- Witness for C5's amended theorem: a matching valid selector is a true
tick; a parse failure falls through to visible text; a plain-text query
matches via raw markup. -/
theorem seePredicate_strategy_eval_witness :
    seePredicate matchingDom ".card" = some true
    ∧ seePredicate parseFailDom "[[w" = some true
    ∧ seePredicate markupDom "hello" = some true := by
  refine ⟨?_, ?_, ?_⟩
  · have h := (seePredicate_strategy_eval matchingDom ".card").1 (by decide) 3 rfl
    simpa using h
  · exact (seePredicate_strategy_eval parseFailDom "[[w").2.1 rfl (by decide)
  · exact (seePredicate_strategy_eval markupDom "hello").2.2 (by decide) (by decide)

/-- C6: element resolution follows the fixed priority list.  For the
token "submit" the semantic-role shortcut resolves to
button[type="submit"] before any attribute template is considered; and
for a non-selector-shaped token whose data-testid, data-test-id and
data-cy candidates all fail, an enabled name-attribute match is returned
with no condition whatsoever on the aria-label candidate — an element
reachable by both name and aria-label resolves via name. -/
theorem findElement_priority_order (p : ProbePage) (x : String) :
    (x = "submit" → p.found (notDisabled "button[type=\"submit\"]") 2000 = true →
        findElement p x = Except.ok "button[type=\"submit\"]")
    ∧ (isSelectorLike x = false → x ≠ "submit" → x ≠ "Confirm" →
        p.found (notDisabled (attrSel "data-testid" x)) 2000 = false →
        p.found (attrSel "data-testid" x) 1000 = false →
        p.found (notDisabled (attrSel "data-test-id" x)) 2000 = false →
        p.found (attrSel "data-test-id" x) 1000 = false →
        p.found (notDisabled (attrSel "data-cy" x)) 2000 = false →
        p.found (attrSel "data-cy" x) 1000 = false →
        p.found (notDisabled (attrSel "name" x)) 2000 = true →
        findElement p x = Except.ok (attrSel "name" x)) := by
  constructor
  · intro hx hf
    subst hx
    have h1 : isSelectorLike "submit" = false := by decide
    simp [findElement, h1, strategiesFor, probeLoopTrace, hf]
  · intro hsel hns hnc f1 f2 f3 f4 f5 f6 hname
    have hc : (x == "submit" || x == "Confirm") = false := by
      simp [hns, hnc]
    simp [findElement, hsel, strategiesFor, hc, probeLoopTrace,
      f1, f2, f3, f4, f5, f6, hname]

/-- Witness for C6: on a page where only the enabled submit button
exists, "submit" resolves to it; on a page where both the name and the
aria-label candidates for "user" resolve, the name candidate wins. -/
theorem findElement_priority_order_witness :
    findElement submitPage "submit" = Except.ok "button[type=\"submit\"]"
    ∧ findElement nameAriaPage "user" = Except.ok (attrSel "name" "user")
    ∧ nameAriaPage.found (notDisabled (attrSel "aria-label" "user")) 2000 = true := by
  refine ⟨?_, ?_, by decide⟩
  · exact (findElement_priority_order submitPage "submit").1 rfl (by decide)
  · exact (findElement_priority_order nameAriaPage "user").2 (by decide) (by decide)
      (by decide) (by decide) (by decide) (by decide) (by decide) (by decide)
      (by decide) (by decide)

/-- C7: in the candidate loop, each candidate is first probed excluding
disabled elements (2000 ms) and, only when that fails, re-probed allowing
disabled elements (1000 ms); the first candidate resolving under either
probe is returned, and the recorded probe trace is exactly the two probes
of each failed earlier candidate followed by the probes of the winning
candidate — no later candidate is ever probed (short-circuit, not
merge). -/
theorem probeLoopTrace_first_resolving (p : ProbePage)
    (before after : List String) (c : String)
    (hb : ∀ s ∈ before, p.found (notDisabled s) 2000 = false ∧ p.found s 1000 = false)
    (hc : p.found (notDisabled c) 2000 = true ∨ p.found c 1000 = true) :
    probeLoopTrace p (before ++ c :: after)
      = (some c, probesOf before ++
          (if p.found (notDisabled c) 2000 then [(notDisabled c, 2000)]
           else [(notDisabled c, 2000), (c, 1000)])) := by
  induction before with
  | nil =>
      cases h1 : p.found (notDisabled c) 2000 with
      | false =>
          have h2 : p.found c 1000 = true := by
            rcases hc with hc | hc
            · rw [h1] at hc; exact absurd hc (by simp)
            · exact hc
          simp [probeLoopTrace, probesOf, h1, h2]
      | true =>
          simp [probeLoopTrace, probesOf, h1]
  | cons s rest ih =>
      have hs := hb s (List.mem_cons_self s rest)
      have hrest : ∀ u ∈ rest,
          p.found (notDisabled u) 2000 = false ∧ p.found u 1000 = false :=
        fun u hu => hb u (List.mem_cons_of_mem s hu)
      have hih := ih hrest
      simp only [List.cons_append, probeLoopTrace, hs.1, hs.2,
        Bool.false_eq_true, if_false, probesOf, List.cons_append]
      simp [hih]

/-- Witness for C7: with the data-testid candidate failing both probes,
the name candidate resolving only with disabled elements allowed, and an
aria-label candidate present later, the loop returns the name candidate
and probes exactly the data-testid pair plus the name pair. -/
theorem probeLoopTrace_first_resolving_witness :
    probeLoopTrace probePage
        ([attrSel "data-testid" "q"] ++ attrSel "name" "q" :: [attrSel "aria-label" "q"])
      = (some (attrSel "name" "q"), probesOf [attrSel "data-testid" "q"] ++
          (if probePage.found (notDisabled (attrSel "name" "q")) 2000 then
            [(notDisabled (attrSel "name" "q"), 2000)]
           else [(notDisabled (attrSel "name" "q"), 2000), (attrSel "name" "q", 1000)])) :=
  probeLoopTrace_first_resolving probePage [attrSel "data-testid" "q"]
    [attrSel "aria-label" "q"] (attrSel "name" "q") (by decide) (Or.inr (by decide))

/-- C8: whenever the waitForFunction of see rejects — i.e. the query did
not match within the session timeout (or the evaluation itself failed) —
see fails with exactly the message
Expected to see "<query>" but it was not found on the page. -/
theorem see_failure_message (doms : List Dom) (q e : String)
    (h : waitForFunction doms q = Except.error e) :
    see doms q = Except.error (seeMsg q) := by
  unfold see
  rw [h]

/-- Witness for C8: with no tick ever matching, see "Products" fails with
the literal ContentNotFound message. -/
theorem see_failure_message_witness :
    waitForFunction [] "Products" = Except.error "TimeoutError"
    ∧ see [] "Products" = Except.error (seeMsg "Products") :=
  ⟨rfl, see_failure_message [] "Products" "TimeoutError" rfl⟩

/-- C9: setting the viewport with resolution(w, h) and then reading it
with getResolution on the same session returns exactly (w, h), for every
initial session state. -/
theorem resolution_roundtrip (a : AppRes) (w h : Nat)
    (hw : 0 < w) (hh : 0 < h) :
    getResolution (resolution a w h) = Except.ok (w, h) := by
  cases hp : a.page <;> simp [resolution, getResolution, initRes, hp]

/-- Witness for C9: the round trip at 375 x 667 on a fresh session. -/
theorem resolution_roundtrip_witness :
    getResolution (resolution freshApp 375 667) = Except.ok (375, 667) :=
  resolution_roundtrip freshApp 375 667 (by decide) (by decide)

/-- C10: for every query and every sequence of page snapshots — including
snapshots on which the in-page predicate itself throws (as a double quote
in the query makes the injected ARIA attribute selector invalid) — see
has exactly two observable outcomes: it succeeds, or it fails with the
single ContentNotFound message for that query; no internal evaluation
error ever escapes with a different message. -/
theorem see_two_outcomes (doms : List Dom) (q : String) :
    see doms q = Except.ok () ∨ see doms q = Except.error (seeMsg q) := by
  unfold see
  cases waitForFunction doms q <;> simp

end Latte
